import Mathlib

/-!
Verification of the MCSAR K9 scent-cone core (`src/lib/cone.ts`).

Shallow embedding conventions:
* JavaScript numbers are modelled by `ℝ`.
* `Math.round x` is `⌊x + 1/2⌋` (rounds half toward +∞, as in JS), giving `ℤ`.
* The JS remainder operator `%` truncates toward zero and keeps the sign of the
  dividend; it is modelled by `jsMod` below.
* The ISO timestamp strings `lkp_time_iso` / `now_time_iso` enter the core only
  through `Date.parse`; they are modelled by their parsed millisecond values.
* Enumerated string unions (`cloud`, `precip`, `terrain`, `stability`) are
  modelled by inductive types.
-/

/-- Geographic coordinate in degrees (`LatLon` in the source). -/
structure LatLon where
  lat : ℝ
  lon : ℝ

/-- Pixel coordinate (`{x, y}` screen points in the source). -/
structure ScreenPoint where
  x : ℝ
  y : ℝ

inductive Cloud
  | clear
  | partly
  | overcast
  | night
deriving DecidableEq

inductive Precip
  | none
  | light
  | moderate
  | heavy
deriving DecidableEq

inductive Terrain
  | mixed
  | open_
  | forest
  | urban
  | swamp
  | beach
deriving DecidableEq

inductive Stability
  | neutral
  | stable
  | convective
deriving DecidableEq

/-- Truncation toward zero, as used by the JS `%` operator. -/
noncomputable def truncR (x : ℝ) : ℤ :=
  if 0 ≤ x then ⌊x⌋ else ⌈x⌉

/-- The JS remainder `a % b`: `a - b * trunc (a / b)` (sign follows the dividend). -/
noncomputable def jsMod (a b : ℝ) : ℝ :=
  a - b * (truncR (a / b) : ℝ)

/-- JS `Math.round`: nearest integer, halves toward +∞. -/
noncomputable def jsRound (x : ℝ) : ℤ :=
  ⌊x + 1 / 2⌋

/-- `clamp(n, a, b) = Math.max(a, Math.min(b, n))` from the source. -/
noncomputable def clamp (n a b : ℝ) : ℝ :=
  max a (min b n)

/-- `downwindDeg(fromDeg) = (fromDeg + 180) % 360` from the source
(`%` is the JS remainder). -/
noncomputable def downwindDeg (fromDeg : ℝ) : ℝ :=
  jsMod (fromDeg + 180) 360

/-- `degToRad(d) = d * π / 180` from the source. -/
noncomputable def degToRad (d : ℝ) : ℝ :=
  d * Real.pi / 180

/-- `rotatePoint(origin, p, deg)` from the source: translate to origin-relative
coordinates, apply the rotation matrix, translate back. -/
noncomputable def rotatePoint (origin p : ScreenPoint) (deg : ℝ) : ScreenPoint :=
  ⟨origin.x + ((p.x - origin.x) * Real.cos (degToRad deg)
      - (p.y - origin.y) * Real.sin (degToRad deg)),
   origin.y + ((p.x - origin.x) * Real.sin (degToRad deg)
      + (p.y - origin.y) * Real.cos (degToRad deg))⟩

/-- Euclidean distance between two screen points. -/
noncomputable def euclidDist (a b : ScreenPoint) : ℝ :=
  Real.sqrt ((b.x - a.x) ^ 2 + (b.y - a.y) ^ 2)

/-- The `Cone` result type of `computeCone` in the source. -/
structure Cone where
  left : ScreenPoint
  right : ScreenPoint
  tip : ScreenPoint
  downwindDeg : ℝ

/-- `computeCone(src, lengthPx, halfAngleDeg, windFromDeg)` from the source. -/
noncomputable def computeCone (src : ScreenPoint) (lengthPx halfAngleDeg windFromDeg : ℝ) :
    Cone :=
  ⟨rotatePoint src (rotatePoint src ⟨src.x + lengthPx, src.y⟩ (-halfAngleDeg))
      (-(downwindDeg windFromDeg)),
   rotatePoint src (rotatePoint src ⟨src.x + lengthPx, src.y⟩ halfAngleDeg)
      (-(downwindDeg windFromDeg)),
   rotatePoint src ⟨src.x + lengthPx, src.y⟩ (-(downwindDeg windFromDeg)),
   downwindDeg windFromDeg⟩

/-- `metersPerDegreeLat()` from the source: the constant 111320. -/
def metersPerDegreeLat : ℝ := 111320

/-- `metersPerDegreeLon(latDeg) = 111320 * cos(latDeg * π / 180)` from the source. -/
noncomputable def metersPerDegreeLon (latDeg : ℝ) : ℝ :=
  111320 * Real.cos (latDeg * Real.pi / 180)

/-- `moveLL(start, bearingDeg, distanceMeters)` from the source: flat-earth
displacement, bearing clockwise from north. -/
noncomputable def moveLL (start : LatLon) (bearingDeg distanceMeters : ℝ) : LatLon :=
  ⟨start.lat + Real.cos (bearingDeg * Real.pi / 180) * distanceMeters / metersPerDegreeLat,
   start.lon + Real.sin (bearingDeg * Real.pi / 180) * distanceMeters
      / metersPerDegreeLon start.lat⟩

/-- `downwind(fromDeg) = (fromDeg + 180) % 360`, the envelope module's private
copy of `downwindDeg` (`%` is the JS remainder). -/
noncomputable def downwind (fromDeg : ℝ) : ℝ :=
  jsMod (fromDeg + 180) 360

/-- JS `Math.atan2(y, x)`: angle of the point `(x, y)`, in `(-π, π]`. -/
noncomputable def atan2 (y x : ℝ) : ℝ :=
  if 0 < x then Real.arctan (y / x)
  else if x < 0 then
    (if 0 ≤ y then Real.arctan (y / x) + Real.pi else Real.arctan (y / x) - Real.pi)
  else if 0 < y then Real.pi / 2
  else if y < 0 then -(Real.pi / 2)
  else 0

/-- `coneFan(lkp, axisDeg, lengthM, widthEndM, points)` from the source: the fan
polygon `[lkp, arc samples for i = 0 .. points, lkp]`.  The source declares
`points = 28` as a default argument; callers in the source never override it,
and the embedding passes 28 explicitly at each call site. -/
noncomputable def coneFan (lkp : LatLon) (axisDeg lengthM widthEndM : ℝ) (points : ℕ) :
    List LatLon :=
  lkp ::
    (((List.range (points + 1)).map (fun (i : ℕ) =>
      moveLL lkp
        ((axisDeg - atan2 widthEndM lengthM * 180 / Real.pi)
          + ((axisDeg + atan2 widthEndM lengthM * 180 / Real.pi)
              - (axisDeg - atan2 widthEndM lengthM * 180 / Real.pi))
            * ((i : ℝ) / (points : ℝ)))
        lengthM))
    ++ [lkp])

/-- `terrainLenMult` from the source (`switch` with default 1.0). -/
def terrainLenMult (t : Terrain) : ℝ :=
  match t with
  | Terrain.open_ => 1.1
  | Terrain.forest => 0.95
  | Terrain.urban => 0.85
  | Terrain.swamp => 0.9
  | Terrain.beach => 1.0
  | _ => 1.0

/-- `stabilityMult` from the source (`switch` with default 1.0). -/
def stabilityMult (s : Stability) : ℝ :=
  match s with
  | Stability.stable => 0.9
  | Stability.convective => 1.05
  | _ => 1.0

/-- `mixMult(s, terrain)` from the source: `m = 1.0`, then `m *= 0.85` if stable,
`m *= 1.25` if convective, `m *= 1.15` if urban. -/
def mixMult (s : Stability) (terrain : Terrain) : ℝ :=
  1.0 * (if s = Stability.stable then 0.85 else 1)
    * (if s = Stability.convective then 1.25 else 1)
    * (if terrain = Terrain.urban then 1.15 else 1)

/-- `tauMinutes(tempF, rh, cloud, windMph)` from the source: `tau` starts at 180
and is reassigned by two successive `if` statements. -/
noncomputable def tauMinutes (tempF rh : ℝ) (cloud : Cloud) (windMph : ℝ) : ℝ :=
  let tau : ℝ := 180
  let tau := if 85 < tempF ∨ rh < 35 ∨ 15 < windMph ∨ cloud = Cloud.clear then 120 else tau
  let tau :=
    if tempF < 65 ∧ 55 < rh ∧ (cloud = Cloud.overcast ∨ cloud = Cloud.night) then 240 else tau
  tau

/-- The humidity factor `hum` of `confidenceScore` in the source. -/
noncomputable def humFactor (rh : ℝ) : ℝ :=
  if rh < 30 then 0.8 else if 60 < rh then 1.1 else 1.0

/-- The temperature factor `temp` of `confidenceScore` in the source. -/
noncomputable def tempFactor (tempF : ℝ) : ℝ :=
  if 85 < tempF then 0.85 else if tempF < 60 then 1.05 else 1.0

/-- The sky factor `sun` of `confidenceScore` in the source. -/
def sunFactor (cloud : Cloud) : ℝ :=
  if cloud = Cloud.clear then 0.85
  else if cloud = Cloud.partly then 0.95
  else if cloud = Cloud.overcast ∨ cloud = Cloud.night then 1.05
  else 1.0

/-- The precipitation factor `rain` of `confidenceScore` in the source
(per-precip base, then `rain *= 0.95` if `recentRain`). -/
def rainFactor (precip : Precip) (recentRain : Bool) : ℝ :=
  (if precip = Precip.heavy then 0.75
   else if precip = Precip.moderate then 0.9
   else if precip = Precip.light then 0.9
   else 1.0) * (if recentRain then 0.95 else 1)

/-- The wind factor `wind` of `confidenceScore` in the source. -/
noncomputable def windFactor (windMph : ℝ) : ℝ :=
  if windMph ≤ 3 then 0.85
  else if windMph ≤ 12 then 1.0
  else if windMph ≤ 18 then 0.9
  else 0.8

/-- `confidenceScore(tMin, tempF, rh, cloud, precip, recentRain, windMph)` from
the source: `clamp(Math.round(cTime * hum * temp * sun * rain * wind), 5, 100)`
with `cTime = 100 * exp(-tMin / tau)`. -/
noncomputable def confidenceScore (tMin tempF rh : ℝ) (cloud : Cloud) (precip : Precip)
    (recentRain : Bool) (windMph : ℝ) : ℝ :=
  clamp
    ((jsRound (100 * Real.exp (-tMin / tauMinutes tempF rh cloud windMph)
        * humFactor rh * tempFactor tempF * sunFactor cloud
        * rainFactor precip recentRain * windFactor windMph) : ℤ) : ℝ)
    5 100

/-- `confidenceBand(c)` from the source. -/
noncomputable def confidenceBand (c : ℝ) : String :=
  if 70 ≤ c then "High" else if 40 ≤ c then "Moderate" else "Low"

/-- `resetRecommendation(c)` from the source. -/
noncomputable def resetRecommendation (c : ℝ) : ℝ :=
  if c < 40 then 30 else if c < 70 then 45 else 60

/-- The input record of `computeScentEnvelope` (ISO timestamp strings are
modelled by their `Date.parse` millisecond values). -/
structure EnvelopeInput where
  lkp_lat : ℝ
  lkp_lon : ℝ
  lkp_time_ms : ℝ
  now_time_ms : ℝ
  wind_from_deg : ℝ
  wind_speed_mph : ℝ
  temperature_f : ℝ
  rel_humidity_pct : ℝ
  cloud : Cloud
  precip : Precip
  recent_rain : Bool
  terrain : Terrain
  stability : Stability

/-- The local `lkp` of `computeScentEnvelope`. -/
def lkpOf (i : EnvelopeInput) : LatLon :=
  ⟨i.lkp_lat, i.lkp_lon⟩

/-- The local `tMin` of `computeScentEnvelope`:
`Math.max(0, Math.round((Date.parse(now) - Date.parse(lkp)) / 60000))`. -/
noncomputable def minutesSince (i : EnvelopeInput) : ℤ :=
  max 0 (jsRound ((i.now_time_ms - i.lkp_time_ms) / 60000))

/-- The local `W` of `computeScentEnvelope`: `Math.max(0, wind_speed_mph)`. -/
noncomputable def windW (i : EnvelopeInput) : ℝ :=
  max 0 i.wind_speed_mph

/-- The local `W_eff` of `computeScentEnvelope`: `Math.min(W, 18)`. -/
noncomputable def windEff (i : EnvelopeInput) : ℝ :=
  min (windW i) 18

/-- The local `L_m` of `computeScentEnvelope`:
`((30 + 6 t) + 120 W_eff ln(1 + t/30)) * terrainLenMult * stabilityMult * 0.3048`. -/
noncomputable def envLengthM (i : EnvelopeInput) : ℝ :=
  ((30 + 6.0 * ((minutesSince i : ℤ) : ℝ))
      + 120 * windEff i * Real.log (1 + ((minutesSince i : ℤ) : ℝ) / 30))
    * terrainLenMult i.terrain * stabilityMult i.stability * 0.3048

/-- The local `Width_end_m` of `computeScentEnvelope`:
`(20 + 3.5 t + 40 sqrt(max(1, t))) * mixMult * 0.3048`. -/
noncomputable def envWidthEndM (i : EnvelopeInput) : ℝ :=
  (20 + 3.5 * ((minutesSince i : ℤ) : ℝ)
      + 40 * Real.sqrt (max 1 ((minutesSince i : ℤ) : ℝ)))
    * mixMult i.stability i.terrain * 0.3048

/-- The local `axis` of `computeScentEnvelope`: `downwind(wind_from_deg)`. -/
noncomputable def axisOf (i : EnvelopeInput) : ℝ :=
  downwind i.wind_from_deg

/-- The local `c` of `computeScentEnvelope`: the confidence score of the request. -/
noncomputable def scoreOf (i : EnvelopeInput) : ℝ :=
  confidenceScore ((minutesSince i : ℤ) : ℝ) i.temperature_f i.rel_humidity_pct
    i.cloud i.precip i.recent_rain (windW i)

def noteLowWind : String :=
  "Low wind: scent pooling/eddy likely—work LKP and leeward obstacles."

def noteHighWind : String :=
  "Higher wind: dilution/variability likely—use multiple start points and reassess often."

def noteHeavyPrecip : String :=
  "Heavy precip can disrupt airborne scent—prioritize high-probability areas first."

def noteLowConf : String :=
  "Low confidence: use envelope as planning aid; prioritize tracks/POAs/intel."

def noteModConf : String :=
  "Moderate confidence: core first, fringe support, residual if resources permit."

def noteHighConf : String :=
  "High confidence: deploy downwind along core axis, bracket fringe."

/-- The `notes` array of `computeScentEnvelope`: conditional pushes for low wind,
high wind and heavy precipitation, then the band-specific closing note. -/
noncomputable def deploymentNotes (i : EnvelopeInput) : List String :=
  (if windW i ≤ 3 then [noteLowWind] else [])
    ++ (if 13 ≤ windW i then [noteHighWind] else [])
    ++ (if i.precip = Precip.heavy then [noteHeavyPrecip] else [])
    ++ [if scoreOf i < 40 then noteLowConf
        else if scoreOf i < 70 then noteModConf
        else noteHighConf]

/-- `StartPoint` from the source. -/
structure StartPoint where
  label : String
  point : LatLon

/-- `EnvelopePolys` from the source. -/
structure EnvelopePolys where
  core : List LatLon
  fringe : List LatLon
  residual : List LatLon

/-- The result record of `computeScentEnvelope`. -/
structure EnvelopeResult where
  minutes_since_lkp : ℤ
  polygons : EnvelopePolys
  confidence_score : ℝ
  confidence_band : String
  reset_recommendation_minutes : ℝ
  recommended_start_points : List StartPoint
  deployment_notes : List String

/-- `computeScentEnvelope(input)` from the source. -/
noncomputable def computeScentEnvelope (i : EnvelopeInput) : EnvelopeResult :=
  ⟨minutesSince i,
   ⟨coneFan (lkpOf i) (axisOf i) (0.55 * envLengthM i) (0.45 * envWidthEndM i) 28,
    coneFan (lkpOf i) (axisOf i) (0.85 * envLengthM i) (0.8 * envWidthEndM i) 28,
    coneFan (lkpOf i) (axisOf i) (1.0 * envLengthM i) (1.15 * envWidthEndM i) 28⟩,
   scoreOf i,
   confidenceBand (scoreOf i),
   resetRecommendation (scoreOf i),
   [⟨"LKP (Immediate)", lkpOf i⟩,
    ⟨"Core Midline (~35%)", moveLL (lkpOf i) (axisOf i) (0.35 * envLengthM i)⟩,
    ⟨"Core Far (~55%)", moveLL (lkpOf i) (axisOf i) (0.55 * envLengthM i)⟩],
   deploymentNotes i⟩

/-- The mathematical residue `a mod b` on the reals (used by the spec for
bearing normalization): `a - b * ⌊a / b⌋`. -/
noncomputable def mathMod (a b : ℝ) : ℝ :=
  a - b * (⌊a / b⌋ : ℝ)

/-- The band-specific closing deployment note named by the spec for each
confidence band. -/
def closingNoteFor (band : String) : String :=
  if band = "High" then noteHighConf
  else if band = "Moderate" then noteModConf
  else noteLowConf

/-- A concrete mild-conditions request (the spec's end-to-end scenario at elapsed
time 0): LKP (27.49, -82.45), wind 10 mph from 270°, 75 °F, RH 50 %, partly
cloudy, no precipitation, mixed terrain, neutral stability. -/
noncomputable def baseInput : EnvelopeInput :=
  ⟨27.49, -82.45, 0, 0, 270, 10, 75, 50, Cloud.partly, Precip.none, false,
   Terrain.mixed, Stability.neutral⟩

/-- The same request evaluated one hour (3 600 000 ms) after the LKP time. -/
noncomputable def laterInput : EnvelopeInput :=
  ⟨27.49, -82.45, 0, 3600000, 270, 10, 75, 50, Cloud.partly, Precip.none, false,
   Terrain.mixed, Stability.neutral⟩

/-- A concrete request at the null island LKP with wind from 180° (downwind axis
0°), calm wind, elapsed time 0, mixed terrain and neutral stability. -/
noncomputable def ceInput : EnvelopeInput :=
  ⟨0, 0, 0, 0, 180, 0, 75, 50, Cloud.partly, Precip.none, false,
   Terrain.mixed, Stability.neutral⟩

/-! Helper lemmas. -/

theorem minutesSince_nonneg (i : EnvelopeInput) : (0 : ℤ) ≤ minutesSince i :=
  le_max_left _ _

theorem minutesSince_cast_nonneg (i : EnvelopeInput) :
    (0 : ℝ) ≤ ((minutesSince i : ℤ) : ℝ) := by
  exact_mod_cast minutesSince_nonneg i

theorem windEff_nonneg (i : EnvelopeInput) : 0 ≤ windEff i :=
  le_min (le_max_left _ _) (by norm_num)

theorem terrainLenMult_pos (t : Terrain) : 0 < terrainLenMult t := by
  cases t <;> norm_num [terrainLenMult]

theorem stabilityMult_pos (s : Stability) : 0 < stabilityMult s := by
  cases s <;> norm_num [stabilityMult]

theorem mixMult_pos (s : Stability) (t : Terrain) : 0 < mixMult s t := by
  cases s <;> cases t <;> simp only [mixMult, reduceCtorEq, if_false, if_true,
    reduceIte] <;> norm_num

theorem envLengthM_nonneg (i : EnvelopeInput) : 0 ≤ envLengthM i := by
  unfold envLengthM
  have ht := minutesSince_cast_nonneg i
  have hlog : 0 ≤ Real.log (1 + ((minutesSince i : ℤ) : ℝ) / 30) :=
    Real.log_nonneg (by linarith)
  have hwind : 0 ≤ 120 * windEff i * Real.log (1 + ((minutesSince i : ℤ) : ℝ) / 30) :=
    mul_nonneg (mul_nonneg (by norm_num) (windEff_nonneg i)) hlog
  have hbase : 0 ≤ (30 + 6.0 * ((minutesSince i : ℤ) : ℝ))
      + 120 * windEff i * Real.log (1 + ((minutesSince i : ℤ) : ℝ) / 30) := by linarith
  exact mul_nonneg
    (mul_nonneg (mul_nonneg hbase (terrainLenMult_pos i.terrain).le)
      (stabilityMult_pos i.stability).le)
    (by norm_num)

theorem envWidthEndM_nonneg (i : EnvelopeInput) : 0 ≤ envWidthEndM i := by
  unfold envWidthEndM
  have ht := minutesSince_cast_nonneg i
  have hsq : 0 ≤ Real.sqrt (max 1 ((minutesSince i : ℤ) : ℝ)) := Real.sqrt_nonneg _
  have hbase : 0 ≤ 20 + 3.5 * ((minutesSince i : ℤ) : ℝ)
      + 40 * Real.sqrt (max 1 ((minutesSince i : ℤ) : ℝ)) := by linarith
  exact mul_nonneg (mul_nonneg hbase (mixMult_pos i.stability i.terrain).le) (by norm_num)

theorem coneFan_head_last (lkp : LatLon) (axisDeg lengthM widthEndM : ℝ) (points : ℕ) :
    (coneFan lkp axisDeg lengthM widthEndM points).head? = some lkp ∧
    (coneFan lkp axisDeg lengthM widthEndM points).getLast? = some lkp := by
  constructor
  · rfl
  · unfold coneFan
    rw [← List.cons_append, List.getLast?_concat]

/-! Claim theorems. -/

/-- Claim C1 (amended): the last matching rule wins in `tauMinutes`: tau is 240
whenever (temp < 65 °F and RH > 55 % and sky is overcast or night); otherwise
120 if (temp > 85 °F or RH < 35 % or wind > 15 mph or sky = clear); otherwise
180.  On inputs satisfying both conditions tau is 240, not 120. -/
theorem tauMinutes_rule_order (tempF rh windMph : ℝ) (cloud : Cloud) :
    tauMinutes tempF rh cloud windMph =
      if tempF < 65 ∧ 55 < rh ∧ (cloud = Cloud.overcast ∨ cloud = Cloud.night) then 240
      else if 85 < tempF ∨ rh < 35 ∨ 15 < windMph ∨ cloud = Cloud.clear then 120
      else 180 := rfl

/-- Claim C1 (counterexample): at temp 60 °F, RH 60 %, overcast sky and wind
16 mph, the first rule's condition holds (wind > 15 mph), yet tau is 240, not
120 — the first matching rule does not win. -/
theorem tauMinutes_not_first_rule_wins :
    ((85 : ℝ) < 60 ∨ (60 : ℝ) < 35 ∨ (15 : ℝ) < 16 ∨ Cloud.overcast = Cloud.clear) ∧
    tauMinutes 60 60 Cloud.overcast 16 = 240 ∧
    tauMinutes 60 60 Cloud.overcast 16 ≠ 120 := by
  have hval : tauMinutes 60 60 Cloud.overcast 16 = 240 := by
    show (if (60 : ℝ) < 65 ∧ (55 : ℝ) < 60 ∧
        (Cloud.overcast = Cloud.overcast ∨ Cloud.overcast = Cloud.night) then (240 : ℝ)
      else if (85 : ℝ) < 60 ∨ (60 : ℝ) < 35 ∨ (15 : ℝ) < 16 ∨ Cloud.overcast = Cloud.clear
        then 120 else 180) = 240
    rw [if_pos ⟨by norm_num, by norm_num, Or.inl rfl⟩]
  exact ⟨Or.inr (Or.inr (Or.inl (by norm_num))), hval, by rw [hval]; norm_num⟩

/-- Claim C7 (amended): for every nonnegative `fromDeg`, the downwind bearing
returned by `downwindDeg` lies in [0, 360) and equals the mathematical residue
`(fromDeg + 180) mod 360`; the envelope module's `downwind` agrees with
`downwindDeg`, the fan axis is `downwind(wind_from_deg)`, and the `Cone`
result's `downwindDeg` field is `downwindDeg(windFromDeg)`. -/
theorem downwindDeg_nonneg_spec (fromDeg : ℝ) (i : EnvelopeInput) (src : ScreenPoint)
    (lengthPx halfAngleDeg : ℝ) (h : 0 ≤ fromDeg) :
    0 ≤ downwindDeg fromDeg ∧ downwindDeg fromDeg < 360 ∧
    downwindDeg fromDeg = mathMod (fromDeg + 180) 360 ∧
    downwind fromDeg = downwindDeg fromDeg ∧
    axisOf i = downwind i.wind_from_deg ∧
    (computeCone src lengthPx halfAngleDeg fromDeg).downwindDeg = downwindDeg fromDeg := by
  have harg : 0 ≤ (fromDeg + 180) / 360 := div_nonneg (by linarith) (by norm_num)
  have heq : downwindDeg fromDeg = mathMod (fromDeg + 180) 360 := by
    unfold downwindDeg jsMod truncR mathMod
    rw [if_pos harg]
  have hfl : (360 : ℝ) * (⌊(fromDeg + 180) / 360⌋ : ℝ) ≤ fromDeg + 180 := by
    calc (360 : ℝ) * (⌊(fromDeg + 180) / 360⌋ : ℝ)
        ≤ 360 * ((fromDeg + 180) / 360) :=
          mul_le_mul_of_nonneg_left (Int.floor_le _) (by norm_num)
      _ = fromDeg + 180 := by field_simp
  have hfu : fromDeg + 180 < 360 * ((⌊(fromDeg + 180) / 360⌋ : ℝ) + 1) := by
    calc fromDeg + 180 = 360 * ((fromDeg + 180) / 360) := by field_simp
      _ < 360 * ((⌊(fromDeg + 180) / 360⌋ : ℝ) + 1) :=
          mul_lt_mul_of_pos_left (Int.lt_floor_add_one _) (by norm_num)
  refine ⟨?_, ?_, heq, rfl, rfl, rfl⟩
  · rw [heq]; unfold mathMod; linarith
  · rw [heq]; unfold mathMod; linarith

/-- Witness for claim C7's theorem at `fromDeg = 90`. -/
theorem downwindDeg_nonneg_spec_witness :
    (0 : ℝ) ≤ 90 ∧
    (0 ≤ downwindDeg 90 ∧ downwindDeg 90 < 360 ∧
      downwindDeg 90 = mathMod (90 + 180) 360 ∧
      downwind 90 = downwindDeg 90 ∧
      axisOf baseInput = downwind baseInput.wind_from_deg ∧
      (computeCone ⟨0, 0⟩ 100 20 90).downwindDeg = downwindDeg 90) :=
  ⟨by norm_num, downwindDeg_nonneg_spec 90 baseInput ⟨0, 0⟩ 100 20 (by norm_num)⟩

/-- Claim C7 (counterexample): at `fromDeg = -200` the JS remainder keeps the
dividend's sign, so the returned bearing is -20: it is not in [0, 360) and does
not equal the mathematical residue 340. -/
theorem downwindDeg_negative_input_not_normalized :
    ¬ (0 ≤ downwindDeg (-200) ∧ downwindDeg (-200) < 360 ∧
        downwindDeg (-200) = mathMod ((-200) + 180) 360) := by
  have hval : downwindDeg (-200) = -20 := by
    unfold downwindDeg jsMod truncR
    have harg : ((-200 : ℝ) + 180) / 360 = -(1 / 18) := by norm_num
    rw [harg, if_neg (by norm_num)]
    have hceil : ⌈(-(1 / 18) : ℝ)⌉ = 0 := by
      rw [Int.ceil_eq_zero_iff]
      constructor <;> norm_num
    rw [hceil]
    norm_num
  intro hcontra
  rw [hval] at hcontra
  have := hcontra.1
  norm_num at this

/-- Claim C4: the confidence score is an integer in [5, 100]; the band is
"High" iff score ≥ 70, "Moderate" iff 40 ≤ score < 70, "Low" otherwise; and the
reset recommendation is 60 minutes for High, 45 for Moderate and 30 for Low. -/
theorem confidence_score_band_reset (i : EnvelopeInput) :
    (∃ n : ℤ, (computeScentEnvelope i).confidence_score = (n : ℝ) ∧ 5 ≤ n ∧ n ≤ 100) ∧
    ((computeScentEnvelope i).confidence_band = "High" ↔
      70 ≤ (computeScentEnvelope i).confidence_score) ∧
    ((computeScentEnvelope i).confidence_band = "Moderate" ↔
      (40 ≤ (computeScentEnvelope i).confidence_score ∧
        (computeScentEnvelope i).confidence_score < 70)) ∧
    ((computeScentEnvelope i).confidence_band = "Low" ↔
      (computeScentEnvelope i).confidence_score < 40) ∧
    ((computeScentEnvelope i).reset_recommendation_minutes =
      if (computeScentEnvelope i).confidence_band = "High" then 60
      else if (computeScentEnvelope i).confidence_band = "Moderate" then 45 else 30) := by
  have hcs : (computeScentEnvelope i).confidence_score = scoreOf i := rfl
  have hcb : (computeScentEnvelope i).confidence_band = confidenceBand (scoreOf i) := rfl
  have hrr : (computeScentEnvelope i).reset_recommendation_minutes
      = resetRecommendation (scoreOf i) := rfl
  rw [hcs, hcb, hrr]
  have hint : ∃ n : ℤ, scoreOf i = (n : ℝ) ∧ 5 ≤ n ∧ n ≤ 100 := by
    obtain ⟨k, hk⟩ : ∃ k : ℤ, scoreOf i = clamp (k : ℝ) 5 100 := ⟨_, rfl⟩
    refine ⟨max 5 (min 100 k), ?_, le_max_left _ _, max_le (by norm_num) (min_le_left _ _)⟩
    rw [hk]
    unfold clamp
    push_cast
    rfl
  unfold confidenceBand resetRecommendation
  rcases le_or_lt 70 (scoreOf i) with h70 | h70
  · rw [if_pos h70]
    refine ⟨hint, Iff.intro (fun _ => h70) (fun _ => rfl), ?_, ?_, ?_⟩
    · exact Iff.intro (fun hEq => absurd hEq (by decide))
        (fun hc => absurd hc.2 (not_lt.mpr h70))
    · exact Iff.intro (fun hEq => absurd hEq (by decide))
        (fun hc => absurd hc (not_lt.mpr (by linarith)))
    · rw [if_pos rfl, if_neg (by linarith : ¬ scoreOf i < 40),
        if_neg (not_lt.mpr h70)]
  · rcases le_or_lt 40 (scoreOf i) with h40 | h40
    · rw [if_neg (not_le.mpr h70), if_pos h40]
      refine ⟨hint, ?_, Iff.intro (fun _ => ⟨h40, h70⟩) (fun _ => rfl), ?_, ?_⟩
      · exact Iff.intro (fun hEq => absurd hEq (by decide))
          (fun hc => absurd hc (not_le.mpr h70))
      · exact Iff.intro (fun hEq => absurd hEq (by decide))
          (fun hc => absurd hc (not_lt.mpr h40))
      · rw [if_neg (by decide : ¬ ("Moderate" : String) = "High"), if_pos rfl,
          if_neg (not_lt.mpr h40), if_pos h70]
    · rw [if_neg (not_le.mpr h70), if_neg (not_le.mpr h40)]
      refine ⟨hint, ?_, ?_, Iff.intro (fun _ => h40) (fun _ => rfl), ?_⟩
      · exact Iff.intro (fun hEq => absurd hEq (by decide))
          (fun hc => absurd hc (not_le.mpr (by linarith)))
      · exact Iff.intro (fun hEq => absurd hEq (by decide))
          (fun hc => absurd hc.1 (not_le.mpr h40))
      · rw [if_neg (by decide : ¬ ("Low" : String) = "High"),
          if_neg (by decide : ¬ ("Low" : String) = "Moderate"), if_pos h40]

/-- Claim C5: each of the three returned polygons (core, fringe, residual) is
explicitly closed: its first and last vertices both equal the LKP. -/
theorem envelope_polygons_closed (i : EnvelopeInput) :
    ((computeScentEnvelope i).polygons.core.head? = some (lkpOf i) ∧
      (computeScentEnvelope i).polygons.core.getLast? = some (lkpOf i)) ∧
    ((computeScentEnvelope i).polygons.fringe.head? = some (lkpOf i) ∧
      (computeScentEnvelope i).polygons.fringe.getLast? = some (lkpOf i)) ∧
    ((computeScentEnvelope i).polygons.residual.head? = some (lkpOf i) ∧
      (computeScentEnvelope i).polygons.residual.getLast? = some (lkpOf i)) :=
  ⟨coneFan_head_last _ _ _ _ _, coneFan_head_last _ _ _ _ _, coneFan_head_last _ _ _ _ _⟩

/-- Claim C6: the three zones are nested by size — the core length/end-width
(0.55 L, 0.45 W) are at most the fringe values (0.85 L, 0.8 W), which are at
most the residual values (1.0 L, 1.15 W), for the shared non-negative base
length L and width W of any request. -/
theorem zones_nested (i : EnvelopeInput) :
    (0.55 * envLengthM i ≤ 0.85 * envLengthM i ∧
      0.85 * envLengthM i ≤ 1.0 * envLengthM i) ∧
    (0.45 * envWidthEndM i ≤ 0.8 * envWidthEndM i ∧
      0.8 * envWidthEndM i ≤ 1.15 * envWidthEndM i) := by
  have hL := envLengthM_nonneg i
  have hW := envWidthEndM_nonneg i
  exact ⟨⟨by linarith, by linarith⟩, ⟨by linarith, by linarith⟩⟩

/-- Claim C8: for two requests sharing wind speed, terrain and stability, the
envelope's total length `L_m` and end width `Width_end_m` are non-decreasing in
the elapsed minutes. -/
theorem envelope_monotone_in_time (i1 i2 : EnvelopeInput)
    (hw : i1.wind_speed_mph = i2.wind_speed_mph)
    (hterr : i1.terrain = i2.terrain)
    (hstab : i1.stability = i2.stability)
    (hm : minutesSince i1 ≤ minutesSince i2) :
    envLengthM i1 ≤ envLengthM i2 ∧ envWidthEndM i1 ≤ envWidthEndM i2 := by
  have ht1 := minutesSince_cast_nonneg i1
  have htle : ((minutesSince i1 : ℤ) : ℝ) ≤ ((minutesSince i2 : ℤ) : ℝ) := by
    exact_mod_cast hm
  have hwe : windEff i1 = windEff i2 := by unfold windEff windW; rw [hw]
  constructor
  · unfold envLengthM
    rw [hterr, hstab, hwe]
    apply mul_le_mul_of_nonneg_right _ (by norm_num : (0 : ℝ) ≤ 0.3048)
    apply mul_le_mul_of_nonneg_right _ (stabilityMult_pos i2.stability).le
    apply mul_le_mul_of_nonneg_right _ (terrainLenMult_pos i2.terrain).le
    have hlog : Real.log (1 + ((minutesSince i1 : ℤ) : ℝ) / 30)
        ≤ Real.log (1 + ((minutesSince i2 : ℤ) : ℝ) / 30) :=
      Real.log_le_log (by linarith) (by linarith)
    have hwind : 120 * windEff i2 * Real.log (1 + ((minutesSince i1 : ℤ) : ℝ) / 30)
        ≤ 120 * windEff i2 * Real.log (1 + ((minutesSince i2 : ℤ) : ℝ) / 30) :=
      mul_le_mul_of_nonneg_left hlog (mul_nonneg (by norm_num) (windEff_nonneg i2))
    linarith
  · unfold envWidthEndM
    rw [hterr, hstab]
    apply mul_le_mul_of_nonneg_right _ (by norm_num : (0 : ℝ) ≤ 0.3048)
    apply mul_le_mul_of_nonneg_right _ (mixMult_pos i2.stability i2.terrain).le
    have hsq : Real.sqrt (max 1 ((minutesSince i1 : ℤ) : ℝ))
        ≤ Real.sqrt (max 1 ((minutesSince i2 : ℤ) : ℝ)) :=
      Real.sqrt_le_sqrt (max_le_max le_rfl htle)
    linarith

/-- Witness for claim C8's theorem: the mild-conditions request evaluated at the
LKP time and one hour later. -/
theorem envelope_monotone_in_time_witness :
    baseInput.wind_speed_mph = laterInput.wind_speed_mph ∧
    baseInput.terrain = laterInput.terrain ∧
    baseInput.stability = laterInput.stability ∧
    minutesSince baseInput ≤ minutesSince laterInput ∧
    (envLengthM baseInput ≤ envLengthM laterInput ∧
      envWidthEndM baseInput ≤ envWidthEndM laterInput) := by
  have h1 : minutesSince baseInput = 0 := by
    unfold minutesSince jsRound
    have harg : (baseInput.now_time_ms - baseInput.lkp_time_ms) / 60000 + 1 / 2
        = (1 / 2 : ℝ) := by
      show ((0 : ℝ) - 0) / 60000 + 1 / 2 = 1 / 2
      norm_num
    rw [harg, Int.floor_eq_zero_iff.mpr (by constructor <;> norm_num)]
    norm_num
  have h2 : minutesSince laterInput = 60 := by
    unfold minutesSince jsRound
    have harg : (laterInput.now_time_ms - laterInput.lkp_time_ms) / 60000 + 1 / 2
        = (121 / 2 : ℝ) := by
      show ((3600000 : ℝ) - 0) / 60000 + 1 / 2 = 121 / 2
      norm_num
    have hfl : ⌊(121 / 2 : ℝ)⌋ = (60 : ℤ) := by
      rw [Int.floor_eq_iff]
      constructor <;> norm_num
    rw [harg, hfl]
    norm_num
  have hm : minutesSince baseInput ≤ minutesSince laterInput := by
    rw [h1, h2]; norm_num
  exact ⟨rfl, rfl, rfl, hm,
    envelope_monotone_in_time baseInput laterInput rfl rfl rfl hm⟩

theorem ceInput_minutes : minutesSince ceInput = 0 := by
  unfold minutesSince jsRound
  have harg : (ceInput.now_time_ms - ceInput.lkp_time_ms) / 60000 + 1 / 2
      = (1 / 2 : ℝ) := by
    show ((0 : ℝ) - 0) / 60000 + 1 / 2 = 1 / 2
    norm_num
  rw [harg, Int.floor_eq_zero_iff.mpr (by constructor <;> norm_num)]
  norm_num

theorem ceInput_axis : axisOf ceInput = 0 := by
  unfold axisOf downwind jsMod truncR
  have h1 : ceInput.wind_from_deg + 180 = (360 : ℝ) := by
    show (180 : ℝ) + 180 = 360
    norm_num
  rw [h1]
  have h2 : (360 : ℝ) / 360 = 1 := by norm_num
  rw [h2, if_pos (by norm_num : (0 : ℝ) ≤ 1), Int.floor_one]
  norm_num

theorem ceInput_length : envLengthM ceInput = 9.144 := by
  unfold envLengthM
  rw [ceInput_minutes]
  have hwe : windEff ceInput = 0 := by
    unfold windEff windW
    show min (max 0 (0 : ℝ)) 18 = 0
    norm_num
  rw [hwe]
  have hterr : terrainLenMult ceInput.terrain = 1.0 := rfl
  have hstab : stabilityMult ceInput.stability = 1.0 := rfl
  rw [hterr, hstab]
  push_cast
  ring_nf

/-- Claim C2 (amended): the three recommended start points are, in fixed
nearest-to-farthest order, the LKP ("Immediate"), a point at 35 % of the TOTAL
envelope length `L_m` along the downwind axis ("Core Midline"), and a point at
55 % of the total envelope length ("Core Far"); 0.55 L_m is exactly the length
of the core zone, so "Core Far" sits at the core zone's far end. -/
theorem startPoints_fractions_of_total (i : EnvelopeInput) :
    (computeScentEnvelope i).recommended_start_points =
      [⟨"LKP (Immediate)", lkpOf i⟩,
       ⟨"Core Midline (~35%)", moveLL (lkpOf i) (axisOf i) (0.35 * envLengthM i)⟩,
       ⟨"Core Far (~55%)", moveLL (lkpOf i) (axisOf i) (0.55 * envLengthM i)⟩] ∧
    (0 : ℝ) ≤ 0.35 * envLengthM i ∧
    0.35 * envLengthM i ≤ 0.55 * envLengthM i ∧
    (computeScentEnvelope i).polygons.core =
      coneFan (lkpOf i) (axisOf i) (0.55 * envLengthM i) (0.45 * envWidthEndM i) 28 := by
  have hL := envLengthM_nonneg i
  exact ⟨rfl, by linarith, by linarith, rfl⟩

/-- Claim C2 (counterexample): on a concrete request (LKP (0,0), wind from
180°, elapsed 0, mixed/neutral) the returned start points are NOT at 35 % and
55 % of the core-zone length (0.55 L_m): the code measures those fractions
against the total envelope length L_m instead. -/
theorem startPoints_not_fractions_of_core :
    ¬ ((computeScentEnvelope ceInput).recommended_start_points.map StartPoint.point =
      [lkpOf ceInput,
       moveLL (lkpOf ceInput) (axisOf ceInput) (0.35 * (0.55 * envLengthM ceInput)),
       moveLL (lkpOf ceInput) (axisOf ceInput) (0.55 * (0.55 * envLengthM ceInput))]) := by
  intro h
  have hmap : (computeScentEnvelope ceInput).recommended_start_points.map StartPoint.point =
      [lkpOf ceInput,
       moveLL (lkpOf ceInput) (axisOf ceInput) (0.35 * envLengthM ceInput),
       moveLL (lkpOf ceInput) (axisOf ceInput) (0.55 * envLengthM ceInput)] := rfl
  rw [hmap] at h
  injection h with hhead htail
  injection htail with hmid _
  have hlat := congrArg LatLon.lat hmid
  have hlkp : lkpOf ceInput = ⟨0, 0⟩ := rfl
  rw [hlkp, ceInput_axis, ceInput_length] at hlat
  have hang : (0 : ℝ) * Real.pi / 180 = 0 := by simp
  unfold moveLL metersPerDegreeLat at hlat
  simp only [hang, Real.cos_zero] at hlat
  norm_num at hlat

/-- Claim C3 (amended): the fan polygon builder computes
`halfAngle = atan2(width, length)` in radians, spans bearings from
`axis - halfAngle°` to `axis + halfAngle°`, samples 29 points (28 equal angular
steps, both endpoint bearings included) at `length` meters from the LKP via the
flat-earth `moveLL`, and returns `[LKP, samples in order, LKP]` (31 vertices). -/
theorem coneFan_arc_characterization (lkp : LatLon) (axisDeg lengthM widthEndM : ℝ) :
    (coneFan lkp axisDeg lengthM widthEndM 28).length = 31 ∧
    (coneFan lkp axisDeg lengthM widthEndM 28).head? = some lkp ∧
    (coneFan lkp axisDeg lengthM widthEndM 28).getLast? = some lkp ∧
    ∀ j : Fin 29,
      (coneFan lkp axisDeg lengthM widthEndM 28)[(j : ℕ) + 1]? =
        some (moveLL lkp
          ((axisDeg - atan2 widthEndM lengthM * 180 / Real.pi)
            + ((axisDeg + atan2 widthEndM lengthM * 180 / Real.pi)
                - (axisDeg - atan2 widthEndM lengthM * 180 / Real.pi))
              * (((j : ℕ) : ℝ) / 28))
          lengthM) := by
  refine ⟨?_, (coneFan_head_last _ _ _ _ _).1, (coneFan_head_last _ _ _ _ _).2, ?_⟩
  · unfold coneFan
    simp
  · intro j
    unfold coneFan
    rw [List.getElem?_cons_succ,
      List.getElem?_append_left (by simp),
      List.getElem?_map, List.getElem?_range j.isLt]
    simp

/-- Claim C3 (counterexample): at a concrete input the fan polygon has 31
vertices, not the 30 that `[LKP, 28 samples, LKP]` would give: the arc loop
runs from i = 0 to i = 28 inclusive, sampling 29 points. -/
theorem coneFan_not_28_samples :
    (coneFan ⟨0, 0⟩ 0 10 5 28).length ≠ 30 := by
  unfold coneFan
  simp

/-- Claim C10: the deployment notes list is non-empty, ends with the unique
band-specific closing note matching the returned confidence band, and any wind
or heavy-precipitation caution notes precede it in the fixed order wind-low,
wind-high, heavy-precip. -/
theorem deployment_notes_structure (i : EnvelopeInput) :
    (computeScentEnvelope i).deployment_notes ≠ [] ∧
    (∃ l : List String,
      (computeScentEnvelope i).deployment_notes =
        l ++ [closingNoteFor ((computeScentEnvelope i).confidence_band)] ∧
      l.Sublist [noteLowWind, noteHighWind, noteHeavyPrecip]) ∧
    ((computeScentEnvelope i).deployment_notes.filter
        (fun s => s == noteLowConf || s == noteModConf || s == noteHighConf)).length
      = 1 := by
  have hnotes : (computeScentEnvelope i).deployment_notes = deploymentNotes i := rfl
  have hband : (computeScentEnvelope i).confidence_band = confidenceBand (scoreOf i) := rfl
  rw [hnotes, hband]
  have hclose : (if scoreOf i < 40 then noteLowConf
      else if scoreOf i < 70 then noteModConf else noteHighConf)
      = closingNoteFor (confidenceBand (scoreOf i)) := by
    rcases lt_or_le (scoreOf i) 40 with h40 | h40
    · have hb : confidenceBand (scoreOf i) = "Low" := by
        unfold confidenceBand
        rw [if_neg (by linarith : ¬ (70 : ℝ) ≤ scoreOf i),
          if_neg (by linarith : ¬ (40 : ℝ) ≤ scoreOf i)]
      rw [hb, if_pos h40]
      unfold closingNoteFor
      rw [if_neg (by decide : ¬ ("Low" : String) = "High"),
        if_neg (by decide : ¬ ("Low" : String) = "Moderate")]
    · rcases lt_or_le (scoreOf i) 70 with h70 | h70
      · have hb : confidenceBand (scoreOf i) = "Moderate" := by
          unfold confidenceBand
          rw [if_neg (by linarith : ¬ (70 : ℝ) ≤ scoreOf i), if_pos h40]
        rw [hb, if_neg (not_lt.mpr h40), if_pos h70]
        unfold closingNoteFor
        rw [if_neg (by decide : ¬ ("Moderate" : String) = "High"), if_pos rfl]
      · have hb : confidenceBand (scoreOf i) = "High" := by
          unfold confidenceBand
          rw [if_pos h70]
        rw [hb, if_neg (not_lt.mpr h40), if_neg (not_lt.mpr h70)]
        unfold closingNoteFor
        rw [if_pos rfl]
  refine ⟨?_, ⟨(if windW i ≤ 3 then [noteLowWind] else [])
      ++ ((if 13 ≤ windW i then [noteHighWind] else [])
        ++ (if i.precip = Precip.heavy then [noteHeavyPrecip] else [])), ?_, ?_⟩, ?_⟩
  · intro hnil
    unfold deploymentNotes at hnil
    simp at hnil
  · unfold deploymentNotes
    rw [hclose]
    simp [List.append_assoc]
  · have hsplit : [noteLowWind, noteHighWind, noteHeavyPrecip]
        = [noteLowWind] ++ ([noteHighWind] ++ [noteHeavyPrecip]) := rfl
    rw [hsplit]
    refine List.Sublist.append ?_ (List.Sublist.append ?_ ?_)
    · split_ifs
      · exact List.Sublist.refl _
      · exact List.nil_sublist _
    · split_ifs
      · exact List.Sublist.refl _
      · exact List.nil_sublist _
    · split_ifs
      · exact List.Sublist.refl _
      · exact List.nil_sublist _
  · unfold deploymentNotes
    rw [List.filter_append, List.filter_append, List.filter_append,
      List.length_append, List.length_append, List.length_append]
    have lA : (List.filter (fun s => s == noteLowConf || s == noteModConf
        || s == noteHighConf) (if windW i ≤ 3 then [noteLowWind] else [])).length = 0 := by
      split_ifs <;> decide
    have lB : (List.filter (fun s => s == noteLowConf || s == noteModConf
        || s == noteHighConf) (if 13 ≤ windW i then [noteHighWind] else [])).length = 0 := by
      split_ifs <;> decide
    have lC : (List.filter (fun s => s == noteLowConf || s == noteModConf
        || s == noteHighConf)
        (if i.precip = Precip.heavy then [noteHeavyPrecip] else [])).length = 0 := by
      split_ifs <;> decide
    have lD : (List.filter (fun s => s == noteLowConf || s == noteModConf
        || s == noteHighConf) [if scoreOf i < 40 then noteLowConf
          else if scoreOf i < 70 then noteModConf else noteHighConf]).length = 1 := by
      split_ifs <;> decide
    rw [lA, lB, lC, lD]

/-- Claim C9: `rotatePoint(origin, p, deg)` preserves the Euclidean distance from
`origin` to `p`, for every origin, point and angle (the rotation is an exact
isometry about the origin). -/
theorem rotatePoint_isometry (origin p : ScreenPoint) (deg : ℝ) :
    euclidDist origin (rotatePoint origin p deg) = euclidDist origin p := by
  have hsc : Real.sin (degToRad deg) ^ 2 + Real.cos (degToRad deg) ^ 2 = 1 :=
    Real.sin_sq_add_cos_sq (degToRad deg)
  unfold euclidDist rotatePoint
  congr 1
  set s := Real.sin (degToRad deg)
  set c := Real.cos (degToRad deg)
  have key :
      (origin.x + ((p.x - origin.x) * c - (p.y - origin.y) * s) - origin.x) ^ 2
        + (origin.y + ((p.x - origin.x) * s + (p.y - origin.y) * c) - origin.y) ^ 2
      = ((p.x - origin.x) ^ 2 + (p.y - origin.y) ^ 2) * (s ^ 2 + c ^ 2) := by
    ring
  rw [key, hsc, mul_one]
